import Mathlib

/-!
Verification of the DarazScraper component (daraz.py, constants.py).

The scraper is embedded as explicit state-passing functions. The browser,
the page contents and the filesystem are abstracted into an environment
`Env`; the mutable facts of a run (current page, CSV file contents,
accumulated log events, invocation counters) form the state `St`. Each
Python method becomes a total Lean function returning a `PyResult`:
either a normal return carrying the Python return value and the
post-state, or an uncaught exception carrying the state at raise time.
Every try/except of the source is translated as a match on the result of
the guarded body.
-/

namespace Daraz

/-- One product container located on the page. Each sub-field holds the
`.text` of the matching child element when `find_element` can locate it
inside the container (constants.py: PRODUCT_NAME, PRODUCT_PRICE,
PRODUCT_SOLD), and `none` when the lookup raises NoSuchElementException
(daraz.py:81-83). -/
structure Container where
  name : Option String
  price : Option String
  sold : Option String
deriving Repr, DecidableEq

/-- A Record as built at daraz.py:84: the list [name, price, sold]. -/
abbrev Record := List String

/-- One page view. `containers` are the elements matching PRODUCT_CONTAINER
in DOM encounter order; `nextClickable` says whether the next-page control
becomes clickable within the 10-unit wait of daraz.py:103-105. The
container wait of daraz.py:74-76 (presence_of_all_elements_located)
succeeds exactly when at least one container is present within its
10-unit timeout; with zero containers it raises TimeoutException. -/
structure PageView where
  containers : List Container
  nextClickable : Bool
deriving Repr, DecidableEq

/-- The exception classes distinguished by the handlers in daraz.py:
TimeoutException, NoSuchElementException, and any other WebDriver or
IO failure (caught only by the generic `except Exception` clauses). -/
inductive PyErr where
  | timeout
  | noSuchElement
  | webDriver
deriving Repr, DecidableEq

/-- Log events emitted by the scraper; one constructor per logging call
the claims refer to (line numbers from daraz.py). Info-level progress
logs are not modelled. -/
inductive Ev where
  | openError      -- line 62: failed to open the URL
  | noProducts     -- line 91: timed out waiting for product containers
  | skip           -- line 86: product details not found in container
  | scrapeError    -- line 93: generic error scraping products
  | advanceWarn    -- line 110: next page button not found or not clickable
  | advanceError   -- line 112: generic error navigating to the next page
  | writeError     -- line 128: error writing data to CSV
  | closeError     -- line 161: error closing the WebDriver
  | pageError (i : Nat)  -- line 147: error scraping page i, loop breaks
deriving Repr, DecidableEq

/-- The mutable state of a run.
`dead`: the WebDriver session has been torn down (commands on it raise);
`pageIx`: number of successful next-page clicks, so `Env.pageAt pageIx`
is the page currently displayed; `slept`: total fixed settle delay
accumulated by time.sleep calls; `csv`: the output file contents as rows,
`none` while the file does not exist; `writes`: the batches handed to
write_to_csv, in call order; `extractCalls`, `advanceCalls`, `quitCalls`:
invocation counters of scrape_products, go_to_next_page, quit_driver;
`iterLog`: one entry per completed loop iteration of scrape_all_pages,
(page index, whether go_to_next_page was invoked in that iteration);
`events`: the emitted log events, oldest first. -/
structure St where
  dead : Bool
  pageIx : Nat
  slept : Nat
  csv : Option (List Record)
  writes : List (List Record)
  extractCalls : Nat
  advanceCalls : Nat
  quitCalls : Nat
  iterLog : List (Nat × Bool)
  events : List Ev
deriving Repr, DecidableEq

/-- The initial state: fresh driver (constructed in __init__), no clicks,
no sleeps, no output file yet, nothing logged. -/
def St.init : St :=
  { dead := false, pageIx := 0, slept := 0, csv := none, writes := [],
    extractCalls := 0, advanceCalls := 0, quitCalls := 0,
    iterLog := [], events := [] }

/-- How the outside world responds to the scraper.
`openFails`: driver.get(url) raises (daraz.py:59);
`pageAt n`: the page displayed after n successful next-page clicks;
`writeFails n`: the n-th open/write of the CSV file raises;
`quitFails n`: the n-th driver.quit() raises. -/
structure Env where
  openFails : Bool
  pageAt : Nat → PageView
  writeFails : Nat → Bool
  quitFails : Nat → Bool

/-- Result of running one Python method body: a normal return with the
Python return value and the post-state, or an uncaught exception together
with the state at raise time. -/
inductive PyResult (α : Type) where
  | ok (a : α) (st : St)
  | raised (e : PyErr) (st : St)
deriving Repr, DecidableEq

/-- True when the method returned normally (no exception escaped). -/
def pyOk {α : Type} : PyResult α → Bool
  | PyResult.ok _ _ => true
  | PyResult.raised _ _ => false

/-- The state after the method, on either outcome. -/
def pySt {α : Type} : PyResult α → St
  | PyResult.ok _ st => st
  | PyResult.raised _ st => st

/-- The returned value, when the method returned normally. -/
def pyVal {α : Type} : PyResult α → Option α
  | PyResult.ok a _ => some a
  | PyResult.raised _ _ => none

/-- Append one log event. -/
def push (st : St) (e : Ev) : St := { st with events := st.events ++ [e] }

/-- Append one loop-iteration entry. -/
def logIter (st : St) (e : Nat × Bool) : St :=
  { st with iterLog := st.iterLog ++ [e] }

/-- container.find_element(By.XPATH, sub).text: the sub-element text when
the element is present in the container subtree, NoSuchElementException
otherwise (daraz.py:81-83). -/
def find_element (x : Option String) : Except PyErr String :=
  match x with
  | some s => Except.ok s
  | none => Except.error PyErr.noSuchElement

/-- The body of the per-container try at daraz.py:81-84: look up name,
then price, then sold count, stopping at the first missing sub-field,
and build the Record [name, price, sold]. -/
def containerRecord (c : Container) : Except PyErr Record :=
  match find_element c.name with
  | Except.error e => Except.error e
  | Except.ok n =>
    match find_element c.price with
    | Except.error e => Except.error e
    | Except.ok p =>
      match find_element c.sold with
      | Except.error e => Except.error e
      | Except.ok s => Except.ok [n, p, s]

/-- A container has all three sub-fields present. -/
def hasAllFields (c : Container) : Bool :=
  c.name.isSome && c.price.isSome && c.sold.isSome

/-- The Record extracted from a container with all sub-fields present. -/
def fullRecord (c : Container) : Record :=
  [c.name.getD (""), c.price.getD (""), c.sold.getD ("")]

/-- The for-loop at daraz.py:79-86: build product_data, one Record per
container whose three lookups succeed; a NoSuchElementException inside a
container is caught there (line 85), logged, and the loop continues with
the next container. `find_element` raises nothing but
NoSuchElementException, so the catch-all error arm here is exactly the
source's `except NoSuchElementException`. Returns (product_data, state). -/
def scrapeLoop (cs : List Container) (st : St) : List Record × St :=
  match cs with
  | [] => ([], st)
  | c :: rest =>
    match containerRecord c with
    | Except.ok r =>
        match scrapeLoop rest st with
        | (b, st1) => (r :: b, st1)
    | Except.error _ => scrapeLoop rest (push st Ev.skip)

/-- The arguments of the open(...) call at daraz.py:123. -/
structure OpenSpec where
  mode : String
  newline : String
  encoding : String
deriving Repr, DecidableEq

/-- open(self.csv_file, mode='a', newline='', encoding='utf-8'). -/
def csvOpenSpec : OpenSpec := { mode := "a", newline := "", encoding := "utf-8" }

/-- File contents after opening in append mode and writer.writerows(data):
the file is created when absent, prior rows are kept untouched, and each
Record of data is appended as one row, in order (daraz.py:123-125). -/
def csvAfterAppendWrite (file : Option (List Record)) (data : List Record) :
    List Record :=
  file.getD [] ++ data

/-- daraz.py:114-128, write_to_csv(data). The batch is handed to the sink
(recorded in `writes`); then the open/writerows either succeeds, making the
file contents `csvAfterAppendWrite`, or raises, which the except at line
127 catches and logs, leaving the file unchanged. Returns None either way. -/
def write_to_csv (env : Env) (st : St) (data : List Record) : PyResult Unit :=
  let st1 : St := { st with writes := st.writes ++ [data] }
  if env.writeFails st.writes.length then
    PyResult.ok () (push st1 Ev.writeError)
  else
    PyResult.ok () { st1 with csv := some (csvAfterAppendWrite st1.csv data) }

/-- daraz.py:152-162, quit_driver(). driver.quit() tears the session down;
when it raises, the except at line 161 catches and logs. Either way the
method returns normally and the session is no longer usable. -/
def quit_driver (env : Env) (st : St) : PyResult Unit :=
  let st1 : St := { st with quitCalls := st.quitCalls + 1, dead := true }
  if env.quitFails st.quitCalls then
    PyResult.ok () (push st1 Ev.closeError)
  else
    PyResult.ok () st1

/-- daraz.py:51-63, start_driver(). driver.get(url) raises when navigation
fails or the session is already dead; the except at line 61 catches it,
logs the error, and calls quit_driver. On success, time.sleep(2). -/
def start_driver (env : Env) (st : St) : PyResult Unit :=
  if st.dead || env.openFails then
    quit_driver env (push st Ev.openError)
  else
    PyResult.ok () { st with slept := st.slept + 2 }

/-- daraz.py:74-76: WebDriverWait(driver, 10).until(
presence_of_all_elements_located(PRODUCT_CONTAINER)). On a dead session
the wait raises a WebDriver error; with zero containers present it raises
TimeoutException after the 10-unit timeout; otherwise it yields the
containers in DOM order. -/
def waitContainers (env : Env) (st : St) : Except PyErr (List Container) :=
  if st.dead then Except.error PyErr.webDriver
  else
    match (env.pageAt st.pageIx).containers with
    | [] => Except.error PyErr.timeout
    | c :: rest => Except.ok (c :: rest)

/-- daraz.py:65-93, scrape_products(). product_data starts empty; the wait
for containers either raises (TimeoutException handled at line 90 — the
NoProductsFoundError of the design — or any other error handled at line
92), or yields the containers, which the per-container loop turns into
product_data; write_to_csv(product_data) is then called (line 88), still
inside the try. Returns None on every path. -/
def scrape_products (env : Env) (st : St) : PyResult Unit :=
  let st0 : St := { st with extractCalls := st.extractCalls + 1 }
  match waitContainers env st0 with
  | Except.ok cs =>
    match scrapeLoop cs st0 with
    | (batch, st1) =>
      match write_to_csv env st1 batch with
      | PyResult.ok _ st2 => PyResult.ok () st2
      | PyResult.raised _ st2 => PyResult.ok () (push st2 Ev.scrapeError)
  | Except.error PyErr.timeout => PyResult.ok () (push st0 Ev.noProducts)
  | Except.error _ => PyResult.ok () (push st0 Ev.scrapeError)

/-- daraz.py:95-112, go_to_next_page(). Waits up to 10 units for the
next-page control to be clickable; on success clicks it (advancing the
displayed page) and sleeps 3 units; a TimeoutException is caught at line
109 and logged as a warning; any other error is caught at line 111. The
Python function has no return statement, so its value is None (modelled
as `none : Option Bool`) on every path. -/
def go_to_next_page (env : Env) (st : St) : PyResult (Option Bool) :=
  let st0 : St := { st with advanceCalls := st.advanceCalls + 1 }
  if st0.dead then
    PyResult.ok none (push st0 Ev.advanceError)
  else if (env.pageAt st0.pageIx).nextClickable then
    PyResult.ok none { st0 with pageIx := st0.pageIx + 1, slept := st0.slept + 3 }
  else
    PyResult.ok none (push st0 Ev.advanceWarn)

/-- One iteration body of the page loop (daraz.py:140-145), the part inside
the try: scrape_products, then go_to_next_page unless this is the last
index. Records (i, whether go_to_next_page was invoked) in iterLog. -/
def loopBody (env : Env) (pages i : Nat) (st : St) : PyResult Unit :=
  match scrape_products env st with
  | PyResult.raised e st1 => PyResult.raised e st1
  | PyResult.ok _ st1 =>
    if i < pages - 1 then
      match go_to_next_page env st1 with
      | PyResult.raised e st2 => PyResult.raised e st2
      | PyResult.ok _ st2 => PyResult.ok () (logIter st2 (i, true))
    else
      PyResult.ok () (logIter st1 (i, false))

/-- The for-loop at daraz.py:139-148. `fuel` counts remaining iterations
and `i` is the current page index; an exception escaping the body is
caught by the except at line 146, logged, and breaks the loop. -/
def loopGo (env : Env) (pages : Nat) : Nat → Nat → St → St
  | 0, _, st => st
  | fuel + 1, i, st =>
    match loopBody env pages i st with
    | PyResult.ok _ st1 => loopGo env pages fuel (i + 1) st1
    | PyResult.raised _ st1 => push st1 (Ev.pageError i)

/-- daraz.py:130-150, scrape_all_pages(pages). start_driver, then the page
loop over range(pages), then quit_driver. The calls at lines 137 and 150
are outside any try, so an exception escaping them would propagate. -/
def scrape_all_pages (env : Env) (pages : Nat) (st : St) : PyResult Unit :=
  match start_driver env st with
  | PyResult.raised e st1 => PyResult.raised e st1
  | PyResult.ok _ st1 =>
    match quit_driver env (loopGo env pages pages 0 st1) with
    | PyResult.raised e st2 => PyResult.raised e st2
    | PyResult.ok _ st2 => PyResult.ok () st2

/-! Concrete pages and environments used to evaluate the model on
explicit inputs. -/

/-- A container with all three sub-fields present. -/
def cFullA : Container :=
  { name := some ("Phone A"), price := some ("Rs. 100"), sold := some ("5 sold") }

/-- Another container with all three sub-fields present. -/
def cFullB : Container :=
  { name := some ("Phone B"), price := some ("Rs. 200"), sold := some ("7 sold") }

/-- A container whose price sub-field is absent. -/
def cNoPrice : Container :=
  { name := some ("Phone C"), price := none, sold := some ("1 sold") }

/-- A page with two complete containers and a clickable next control. -/
def pvGood : PageView := { containers := [cFullA, cFullB], nextClickable := true }

/-- A page on which the container wait finds nothing (it times out). -/
def pvEmpty : PageView := { containers := [], nextClickable := true }

/-- Environment where everything succeeds: every page shows `pvGood`. -/
def envGood : Env :=
  { openFails := false, pageAt := fun _ => pvGood,
    writeFails := fun _ => false, quitFails := fun _ => false }

/-- Environment whose pages never show any container. -/
def envEmpty : Env :=
  { openFails := false, pageAt := fun _ => pvEmpty,
    writeFails := fun _ => false, quitFails := fun _ => false }

/-- Environment where opening the target URL fails. -/
def envOpenFail : Env :=
  { openFails := true, pageAt := fun _ => pvGood,
    writeFails := fun _ => false, quitFails := fun _ => false }

/-- Environment where every CSV open/write raises. -/
def envWriteFail : Env :=
  { openFails := false, pageAt := fun _ => pvGood,
    writeFails := fun _ => true, quitFails := fun _ => false }

/-- A state whose output file already holds one row. -/
def stPre : St :=
  { St.init with csv := some [[("old name"), ("old price"), ("old sold")]] }

/-! ### Reduction lemmas for PyResult observers -/

@[simp] theorem pyOk_ok {α : Type} (a : α) (st : St) :
    pyOk (PyResult.ok a st) = true := rfl

@[simp] theorem pyOk_raised {α : Type} (e : PyErr) (st : St) :
    pyOk (PyResult.raised e st : PyResult α) = false := rfl

@[simp] theorem pySt_ok {α : Type} (a : α) (st : St) :
    pySt (PyResult.ok a st) = st := rfl

@[simp] theorem pySt_raised {α : Type} (e : PyErr) (st : St) :
    pySt (PyResult.raised e st : PyResult α) = st := rfl

@[simp] theorem pyVal_ok {α : Type} (a : α) (st : St) :
    pyVal (PyResult.ok a st) = some a := rfl

@[simp] theorem pyVal_raised {α : Type} (e : PyErr) (st : St) :
    pyVal (PyResult.raised e st : PyResult α) = none := rfl

/-! ### Basic lemmas about the per-container extraction -/

theorem containerRecord_full (c : Container) (h : hasAllFields c = true) :
    containerRecord c = Except.ok (fullRecord c) := by
  rcases c with ⟨n, p, s⟩
  cases n <;> cases p <;> cases s <;>
    simp_all [containerRecord, find_element, fullRecord, hasAllFields]

theorem containerRecord_missing (c : Container) (h : hasAllFields c = false) :
    containerRecord c = Except.error PyErr.noSuchElement := by
  rcases c with ⟨n, p, s⟩
  cases n <;> cases p <;> cases s <;>
    simp_all [containerRecord, find_element, hasAllFields]

/-- The batch built by the container loop: exactly one Record per container
with all sub-fields present, in DOM order. -/
theorem scrapeLoop_fst (cs : List Container) (st : St) :
    (scrapeLoop cs st).1 = (cs.filter (fun c => hasAllFields c)).map fullRecord := by
  induction cs generalizing st with
  | nil => rfl
  | cons c rest ih =>
    cases h : hasAllFields c with
    | true =>
      rcases hrs : scrapeLoop rest st with ⟨b, st1⟩
      have hb : b = (rest.filter (fun c => hasAllFields c)).map fullRecord := by
        have := ih st
        rw [hrs] at this
        exact this
      simp [scrapeLoop, containerRecord_full c h, hrs, List.filter_cons, h, hb]
    | false =>
      have := ih (push st Ev.skip)
      simp [scrapeLoop, containerRecord_missing c h, List.filter_cons, h, this]

/-- The container loop touches the state only by appending skip events. -/
theorem scrapeLoop_snd (cs : List Container) (st : St) :
    ∃ es, (scrapeLoop cs st).2 = { st with events := st.events ++ es } := by
  induction cs generalizing st with
  | nil => exact ⟨[], by simp [scrapeLoop]⟩
  | cons c rest ih =>
    cases hc : containerRecord c with
    | ok r =>
      rcases hrs : scrapeLoop rest st with ⟨b, st1⟩
      obtain ⟨es, he⟩ := ih st
      rw [hrs] at he
      exact ⟨es, by simp [scrapeLoop, hc, hrs, he]⟩
    | error e =>
      obtain ⟨es, he⟩ := ih (push st Ev.skip)
      refine ⟨Ev.skip :: es, ?_⟩
      simp only [push] at he
      simp [scrapeLoop, hc, push, he, List.append_assoc]

/-- A fully-present container list yields the full batch and no skips. -/
theorem scrapeLoop_all_full (cs : List Container) (st : St)
    (h : ∀ c ∈ cs, hasAllFields c = true) :
    scrapeLoop cs st = (cs.map fullRecord, st) := by
  induction cs generalizing st with
  | nil => rfl
  | cons c rest ih =>
    have hc : hasAllFields c = true := h c (by simp)
    have hrest : ∀ x ∈ rest, hasAllFields x = true := fun x hx => h x (by simp [hx])
    simp [scrapeLoop, containerRecord_full c hc, ih st hrest]

/-! ### Branch lemmas for the leaf methods -/

theorem write_to_csv_success (env : Env) (st : St) (data : List Record)
    (h : env.writeFails st.writes.length = false) :
    write_to_csv env st data =
      PyResult.ok () { st with writes := st.writes ++ [data],
                               csv := some (csvAfterAppendWrite st.csv data) } := by
  simp [write_to_csv, h]

theorem write_to_csv_failed (env : Env) (st : St) (data : List Record)
    (h : env.writeFails st.writes.length = true) :
    write_to_csv env st data =
      PyResult.ok () (push { st with writes := st.writes ++ [data] } Ev.writeError) := by
  simp [write_to_csv, h]

/-- write_to_csv never lets an exception escape, always records the
hand-off, and touches nothing but `writes`, `csv` and the log. -/
theorem write_to_csv_frame (env : Env) (st : St) (data : List Record) :
    pyOk (write_to_csv env st data) = true ∧
    ∃ es c, pySt (write_to_csv env st data) =
      { st with writes := st.writes ++ [data], csv := c, events := st.events ++ es } := by
  by_cases h : env.writeFails st.writes.length = true
  · rw [write_to_csv_failed env st data h]
    exact ⟨rfl, [Ev.writeError], st.csv, by simp [pySt, push]⟩
  · rw [write_to_csv_success env st data (by simpa using h)]
    exact ⟨rfl, [], some (csvAfterAppendWrite st.csv data), by simp [pySt]⟩

/-- quit_driver never lets an exception escape; it bumps the quit counter,
kills the session, and at most logs. -/
theorem quit_driver_frame (env : Env) (st : St) :
    pyOk (quit_driver env st) = true ∧
    ∃ es, pySt (quit_driver env st) =
      { st with quitCalls := st.quitCalls + 1, dead := true,
                events := st.events ++ es } := by
  by_cases h : env.quitFails st.quitCalls = true
  · refine ⟨?_, [Ev.closeError], ?_⟩ <;> simp [quit_driver, h, pyOk, pySt, push]
  · refine ⟨?_, [], ?_⟩ <;> simp [quit_driver, h, pyOk, pySt]

theorem start_driver_ok (env : Env) (st : St) (hd : st.dead = false)
    (ho : env.openFails = false) :
    start_driver env st = PyResult.ok () { st with slept := st.slept + 2 } := by
  simp [start_driver, hd, ho]

theorem start_driver_failed (env : Env) (st : St)
    (h : (st.dead || env.openFails) = true) :
    start_driver env st = quit_driver env (push st Ev.openError) := by
  simp [start_driver, h]

theorem go_to_next_page_clickable (env : Env) (st : St) (hd : st.dead = false)
    (hc : (env.pageAt st.pageIx).nextClickable = true) :
    go_to_next_page env st =
      PyResult.ok none { st with advanceCalls := st.advanceCalls + 1,
                                 pageIx := st.pageIx + 1, slept := st.slept + 3 } := by
  simp [go_to_next_page, hd, hc]

theorem go_to_next_page_timeout (env : Env) (st : St) (hd : st.dead = false)
    (hc : (env.pageAt st.pageIx).nextClickable = false) :
    go_to_next_page env st =
      PyResult.ok none
        (push { st with advanceCalls := st.advanceCalls + 1 } Ev.advanceWarn) := by
  simp [go_to_next_page, hd, hc]

theorem go_to_next_page_dead (env : Env) (st : St) (hd : st.dead = true) :
    go_to_next_page env st =
      PyResult.ok none
        (push { st with advanceCalls := st.advanceCalls + 1 } Ev.advanceError) := by
  simp [go_to_next_page, hd]

/-- go_to_next_page never raises, always returns None, bumps the advance
counter, and touches nothing but the displayed page, the settle total and
the log. -/
theorem go_to_next_page_frame (env : Env) (st : St) :
    pyOk (go_to_next_page env st) = true ∧
    pyVal (go_to_next_page env st) = some none ∧
    ∃ k s es, pySt (go_to_next_page env st) =
      { st with advanceCalls := st.advanceCalls + 1, pageIx := st.pageIx + k,
                slept := st.slept + s, events := st.events ++ es } := by
  by_cases hd : st.dead = true
  · rw [go_to_next_page_dead env st hd]
    exact ⟨rfl, rfl, 0, 0, [Ev.advanceError], by simp [pySt, push]⟩
  · replace hd : st.dead = false := by simpa using hd
    by_cases hc : (env.pageAt st.pageIx).nextClickable = true
    · rw [go_to_next_page_clickable env st hd hc]
      exact ⟨rfl, rfl, 1, 3, [], by simp [pySt]⟩
    · rw [go_to_next_page_timeout env st hd (by simpa using hc)]
      exact ⟨rfl, rfl, 0, 0, [Ev.advanceWarn], by simp [pySt, push]⟩

/-! ### Branch and frame lemmas for scrape_products -/

theorem scrape_products_dead (env : Env) (st : St) (hd : st.dead = true) :
    scrape_products env st =
      PyResult.ok ()
        (push { st with extractCalls := st.extractCalls + 1 } Ev.scrapeError) := by
  simp [scrape_products, waitContainers, hd]

theorem scrape_products_timeout (env : Env) (st : St) (hd : st.dead = false)
    (he : (env.pageAt st.pageIx).containers = []) :
    scrape_products env st =
      PyResult.ok ()
        (push { st with extractCalls := st.extractCalls + 1 } Ev.noProducts) := by
  simp [scrape_products, waitContainers, hd, he]

/-- When the wait locates containers, scrape_products is exactly the write
of the batch built by the container loop (write_to_csv never raises, so
the generic handler at daraz.py:92 is not taken on this path). -/
theorem scrape_products_located (env : Env) (st : St) (b : List Record) (st1 : St)
    (c0 : Container) (cs : List Container) (hd : st.dead = false)
    (hcs : (env.pageAt st.pageIx).containers = c0 :: cs)
    (hsl : scrapeLoop (c0 :: cs) { st with extractCalls := st.extractCalls + 1 } =
      (b, st1)) :
    scrape_products env st = write_to_csv env st1 b := by
  have hok := (write_to_csv_frame env st1 b).1
  rw [hd] at hsl
  simp only [scrape_products, waitContainers]
  simp [hd, hcs, hsl]
  cases hw : write_to_csv env st1 b with
  | ok a st2 => cases a; rfl
  | raised e st2 => rw [hw] at hok; simp [pyOk] at hok

/-- scrape_products never lets an exception escape; it bumps the extract
counter and touches nothing but the output file, the hand-off list and
the log. -/
theorem scrape_products_frame (env : Env) (st : St) :
    pyOk (scrape_products env st) = true ∧
    ∃ es w c, pySt (scrape_products env st) =
      { st with extractCalls := st.extractCalls + 1, writes := st.writes ++ w,
                csv := c, events := st.events ++ es } := by
  by_cases hd : st.dead = true
  · rw [scrape_products_dead env st hd]
    exact ⟨rfl, [Ev.scrapeError], [], st.csv, by simp [pySt, push]⟩
  · replace hd : st.dead = false := by simpa using hd
    cases hcs : (env.pageAt st.pageIx).containers with
    | nil =>
      rw [scrape_products_timeout env st hd hcs]
      exact ⟨rfl, [Ev.noProducts], [], st.csv, by simp [pySt, push]⟩
    | cons c0 cs =>
      rcases hsl : scrapeLoop (c0 :: cs) { st with extractCalls := st.extractCalls + 1 }
        with ⟨b, st1⟩
      rw [scrape_products_located env st b st1 c0 cs hd hcs hsl]
      obtain ⟨es1, he1⟩ :=
        scrapeLoop_snd (c0 :: cs) { st with extractCalls := st.extractCalls + 1 }
      rw [hsl] at he1
      simp at he1
      obtain ⟨-, es2, c, hw⟩ := write_to_csv_frame env st1 b
      refine ⟨(write_to_csv_frame env st1 b).1, es1 ++ es2, [b], c, ?_⟩
      rw [hw, he1]
      simp [List.append_assoc]

/-! ### The page loop -/

/-- One loop iteration never lets an exception escape; it performs exactly
one scrape_products call, one go_to_next_page call when and only when the
index is not the last, and records that in iterLog. -/
theorem loopBody_spec (env : Env) (pages i : Nat) (st : St) :
    pyOk (loopBody env pages i st) = true ∧
    (pySt (loopBody env pages i st)).extractCalls = st.extractCalls + 1 ∧
    (pySt (loopBody env pages i st)).advanceCalls =
      st.advanceCalls + (if i < pages - 1 then 1 else 0) ∧
    (pySt (loopBody env pages i st)).quitCalls = st.quitCalls ∧
    (pySt (loopBody env pages i st)).dead = st.dead ∧
    (pySt (loopBody env pages i st)).iterLog =
      st.iterLog ++ [(i, decide (i < pages - 1))] ∧
    ∃ es, (pySt (loopBody env pages i st)).events = st.events ++ es := by
  obtain ⟨hok, es1, w1, c1, hsp⟩ := scrape_products_frame env st
  cases hs : scrape_products env st with
  | raised e st1 => rw [hs] at hok; simp [pyOk] at hok
  | ok a st1 =>
    cases a
    rw [hs] at hsp
    simp only [pySt] at hsp
    by_cases hi : i < pages - 1
    · obtain ⟨gok, gval, k, s3, es2, hgp⟩ := go_to_next_page_frame env st1
      cases hg : go_to_next_page env st1 with
      | raised e st2 => rw [hg] at gok; simp [pyOk] at gok
      | ok v st2 =>
        rw [hg] at hgp
        simp only [pySt] at hgp
        have hb : loopBody env pages i st = PyResult.ok () (logIter st2 (i, true)) := by
          simp [loopBody, hs, hi, hg]
        rw [hb]
        refine ⟨rfl, ?_, ?_, ?_, ?_, ?_, ⟨es1 ++ es2, ?_⟩⟩ <;>
          simp [pySt, logIter, hgp, hsp, hi, decide_eq_true hi, List.append_assoc]
    · have hb : loopBody env pages i st = PyResult.ok () (logIter st1 (i, false)) := by
        simp [loopBody, hs, hi]
      rw [hb]
      refine ⟨rfl, ?_, ?_, ?_, ?_, ?_, ⟨es1, ?_⟩⟩ <;>
        simp [pySt, logIter, hsp, hi, decide_eq_false hi, List.append_assoc]

/-- Counting lemma for the page loop: starting at index i with `fuel`
iterations left, the loop performs exactly fuel scrape_products calls and
min fuel (pages-1-i) go_to_next_page calls, never calls quit_driver,
leaves the session flag alone, and records one iterLog entry per index. -/
theorem loopGo_spec (env : Env) (pages : Nat) :
    ∀ (fuel i : Nat) (st : St),
      (loopGo env pages fuel i st).extractCalls = st.extractCalls + fuel ∧
      (loopGo env pages fuel i st).advanceCalls =
        st.advanceCalls + min fuel (pages - 1 - i) ∧
      (loopGo env pages fuel i st).quitCalls = st.quitCalls ∧
      (loopGo env pages fuel i st).dead = st.dead ∧
      (loopGo env pages fuel i st).iterLog =
        st.iterLog ++ (List.range' i fuel).map (fun j => (j, decide (j < pages - 1))) ∧
      ∃ es, (loopGo env pages fuel i st).events = st.events ++ es := by
  intro fuel
  induction fuel with
  | zero => intro i st; simp [loopGo]
  | succ n ih =>
    intro i st
    obtain ⟨bok, hext, hadv, hq, hdead, hiter, es1, hev⟩ := loopBody_spec env pages i st
    cases hb : loopBody env pages i st with
    | raised e st1 => rw [hb] at bok; simp [pyOk] at bok
    | ok a st1 =>
      cases a
      rw [hb] at hext hadv hq hdead hiter hev
      simp only [pySt] at hext hadv hq hdead hiter hev
      obtain ⟨hext2, hadv2, hq2, hdead2, hiter2, es2, hev2⟩ := ih (i + 1) st1
      have hl : loopGo env pages (n + 1) i st = loopGo env pages n (i + 1) st1 := by
        simp [loopGo, hb]
      rw [hl]
      refine ⟨?_, ?_, ?_, ?_, ?_, ?_⟩
      · rw [hext2, hext]; omega
      · rw [hadv2, hadv]
        by_cases hi : i < pages - 1 <;> simp [hi] <;> omega
      · rw [hq2, hq]
      · rw [hdead2, hdead]
      · rw [hiter2, hiter, List.range'_succ]
        simp [List.append_assoc]
      · exact ⟨es1 ++ es2, by rw [hev2, hev, List.append_assoc]⟩

/-- On a dead session the loop body only logs errors: it writes nothing,
the file is untouched, and the session stays dead. -/
theorem loopBody_dead (env : Env) (pages i : Nat) (st : St) (hd : st.dead = true) :
    (pySt (loopBody env pages i st)).writes = st.writes ∧
    (pySt (loopBody env pages i st)).csv = st.csv ∧
    (pySt (loopBody env pages i st)).dead = true := by
  have hs := scrape_products_dead env st hd
  by_cases hi : i < pages - 1
  · obtain ⟨gok, gval, k, s3, es2, hgp⟩ := go_to_next_page_frame env
      (push { st with extractCalls := st.extractCalls + 1 } Ev.scrapeError)
    cases hg : go_to_next_page env
        (push { st with extractCalls := st.extractCalls + 1 } Ev.scrapeError) with
    | raised e st2 => rw [hg] at gok; simp [pyOk] at gok
    | ok v st2 =>
      rw [hg] at hgp
      simp only [pySt] at hgp
      have hb : loopBody env pages i st = PyResult.ok () (logIter st2 (i, true)) := by
        simp [loopBody, hs, hi, hg]
      rw [hb]
      simp [pySt, logIter, hgp, push, hd]
  · have hb : loopBody env pages i st =
        PyResult.ok ()
          (logIter (push { st with extractCalls := st.extractCalls + 1 } Ev.scrapeError)
            (i, false)) := by
      simp [loopBody, hs, hi]
    rw [hb]
    simp [pySt, logIter, push, hd]

/-- On a dead session the whole loop leaves the hand-off list and the
output file untouched. -/
theorem loopGo_dead (env : Env) (pages : Nat) :
    ∀ (fuel i : Nat) (st : St), st.dead = true →
      (loopGo env pages fuel i st).writes = st.writes ∧
      (loopGo env pages fuel i st).csv = st.csv := by
  intro fuel
  induction fuel with
  | zero => intro i st _; simp [loopGo]
  | succ n ih =>
    intro i st hd
    obtain ⟨hw, hc, hd2⟩ := loopBody_dead env pages i st hd
    have bok := (loopBody_spec env pages i st).1
    cases hb : loopBody env pages i st with
    | raised e st1 => rw [hb] at bok; simp [pyOk] at bok
    | ok a st1 =>
      cases a
      rw [hb] at hw hc hd2
      simp only [pySt] at hw hc hd2
      have hl : loopGo env pages (n + 1) i st = loopGo env pages n (i + 1) st1 := by
        simp [loopGo, hb]
      obtain ⟨hw2, hc2⟩ := ih (i + 1) st1 hd2
      rw [hl, hw2, hc2, hw, hc]
      exact ⟨rfl, rfl⟩

/-! ### Preservation of the output file when every write fails -/

theorem scrape_products_allfail (env : Env) (st : St)
    (hw : ∀ n, env.writeFails n = true) :
    (pySt (scrape_products env st)).csv = st.csv ∧
    (pySt (scrape_products env st)).dead = st.dead := by
  by_cases hd : st.dead = true
  · rw [scrape_products_dead env st hd]
    simp [pySt, push]
  · replace hd : st.dead = false := by simpa using hd
    cases hcs : (env.pageAt st.pageIx).containers with
    | nil =>
      rw [scrape_products_timeout env st hd hcs]
      simp [pySt, push]
    | cons c0 cs =>
      rcases hsl : scrapeLoop (c0 :: cs) { st with extractCalls := st.extractCalls + 1 }
        with ⟨b, st1⟩
      rw [scrape_products_located env st b st1 c0 cs hd hcs hsl]
      obtain ⟨es1, he1⟩ :=
        scrapeLoop_snd (c0 :: cs) { st with extractCalls := st.extractCalls + 1 }
      rw [hsl] at he1
      simp at he1
      rw [write_to_csv_failed env st1 b (hw st1.writes.length)]
      simp [pySt, push, he1]

theorem loopBody_allfail (env : Env) (pages i : Nat) (st : St)
    (hw : ∀ n, env.writeFails n = true) :
    (pySt (loopBody env pages i st)).csv = st.csv := by
  obtain ⟨hcsv, hdead⟩ := scrape_products_allfail env st hw
  have hok := (scrape_products_frame env st).1
  cases hs : scrape_products env st with
  | raised e st1 => rw [hs] at hok; simp [pyOk] at hok
  | ok a st1 =>
    cases a
    rw [hs] at hcsv hdead
    simp only [pySt] at hcsv hdead
    by_cases hi : i < pages - 1
    · obtain ⟨gok, gval, k, s3, es2, hgp⟩ := go_to_next_page_frame env st1
      cases hg : go_to_next_page env st1 with
      | raised e st2 => rw [hg] at gok; simp [pyOk] at gok
      | ok v st2 =>
        rw [hg] at hgp
        simp only [pySt] at hgp
        have hb : loopBody env pages i st = PyResult.ok () (logIter st2 (i, true)) := by
          simp [loopBody, hs, hi, hg]
        rw [hb]
        simp [pySt, logIter, hgp, hcsv]
    · have hb : loopBody env pages i st = PyResult.ok () (logIter st1 (i, false)) := by
        simp [loopBody, hs, hi]
      rw [hb]
      simp [pySt, logIter, hcsv]

theorem loopGo_allfail (env : Env) (pages : Nat)
    (hw : ∀ n, env.writeFails n = true) :
    ∀ (fuel i : Nat) (st : St), (loopGo env pages fuel i st).csv = st.csv := by
  intro fuel
  induction fuel with
  | zero => intro i st; simp [loopGo]
  | succ n ih =>
    intro i st
    have hcsv := loopBody_allfail env pages i st hw
    have bok := (loopBody_spec env pages i st).1
    cases hb : loopBody env pages i st with
    | raised e st1 => rw [hb] at bok; simp [pyOk] at bok
    | ok a st1 =>
      cases a
      rw [hb] at hcsv
      simp only [pySt] at hcsv
      have hl : loopGo env pages (n + 1) i st = loopGo env pages n (i + 1) st1 := by
        simp [loopGo, hb]
      rw [hl, ih (i + 1) st1, hcsv]

/-! ### Composition of the whole run -/

theorem start_driver_ok_always (env : Env) (st : St) :
    pyOk (start_driver env st) = true := by
  by_cases h : (st.dead || env.openFails) = true
  · rw [start_driver_failed env st h]
    exact (quit_driver_frame env (push st Ev.openError)).1
  · have hd : st.dead = false := by
      cases hdd : st.dead <;> simp [hdd] at h ⊢
    have ho : env.openFails = false := by
      cases hoo : env.openFails <;> simp [hd, hoo] at h ⊢
    rw [start_driver_ok env st hd ho]
    rfl

/-- start_driver leaves the counters the loop cares about, the hand-off
list and the file untouched; it only possibly sleeps, logs, and quits. -/
theorem start_driver_counts (env : Env) (st : St) :
    (pySt (start_driver env st)).extractCalls = st.extractCalls ∧
    (pySt (start_driver env st)).advanceCalls = st.advanceCalls ∧
    (pySt (start_driver env st)).iterLog = st.iterLog ∧
    (pySt (start_driver env st)).writes = st.writes ∧
    (pySt (start_driver env st)).csv = st.csv ∧
    (pySt (start_driver env st)).quitCalls =
      st.quitCalls + (if (st.dead || env.openFails) = true then 1 else 0) ∧
    ∃ es, (pySt (start_driver env st)).events = st.events ++ es := by
  by_cases h : (st.dead || env.openFails) = true
  · rw [start_driver_failed env st h]
    obtain ⟨qok, es, hq⟩ := quit_driver_frame env (push st Ev.openError)
    rw [hq]
    simp only [push] at hq ⊢
    refine ⟨by simp, by simp, by simp, by simp, by simp, ?_, ⟨Ev.openError :: es, by simp⟩⟩
    simp [h]
  · have hd : st.dead = false := by
      cases hdd : st.dead <;> simp [hdd] at h ⊢
    have ho : env.openFails = false := by
      cases hoo : env.openFails <;> simp [hd, hoo] at h ⊢
    rw [start_driver_ok env st hd ho]
    refine ⟨rfl, rfl, rfl, rfl, rfl, ?_, ⟨[], by simp [pySt]⟩⟩
    simp [pySt, h]

/-- After a failed open, the session is dead and the error is in the log. -/
theorem start_driver_fail_facts (env : Env) (st : St)
    (h : (st.dead || env.openFails) = true) :
    (pySt (start_driver env st)).dead = true ∧
    Ev.openError ∈ (pySt (start_driver env st)).events := by
  rw [start_driver_failed env st h]
  obtain ⟨-, es, hq⟩ := quit_driver_frame env (push st Ev.openError)
  rw [hq]
  refine ⟨rfl, ?_⟩
  simp [push]

/-- The fully evaluated shape of a run: start, loop, quit, each returning
normally, so scrape_all_pages itself always returns normally. -/
theorem scrape_all_pages_run (env : Env) (pages : Nat) (st : St) :
    scrape_all_pages env pages st =
      PyResult.ok ()
        (pySt (quit_driver env
          (loopGo env pages pages 0 (pySt (start_driver env st))))) := by
  have h1 := start_driver_ok_always env st
  cases hs : start_driver env st with
  | raised e st1 => rw [hs] at h1; simp [pyOk] at h1
  | ok a st1 =>
    cases a
    have h2 := (quit_driver_frame env (loopGo env pages pages 0 st1)).1
    cases hq : quit_driver env (loopGo env pages pages 0 st1) with
    | raised e st2 => rw [hq] at h2; simp [pyOk] at h2
    | ok b st2 =>
      cases b
      simp [scrape_all_pages, hs, hq, pySt]

/-! ### Claims -/

/-- C1: on a live page where the container wait locates the container list
cs (nonempty, or the wait would time out) and every container has all
three sub-fields, scrape_products returns normally and hands the output
sink a Batch of exactly cs.length Records, in DOM encounter order, each
Record being the (name, price, sold) text triple of its container. -/
theorem scrape_products_all_fields_batch (env : Env) (st : St)
    (cs : List Container) (hd : st.dead = false)
    (hcs : (env.pageAt st.pageIx).containers = cs) (hne : cs ≠ [])
    (hfull : ∀ c ∈ cs, hasAllFields c = true) :
    pyOk (scrape_products env st) = true ∧
    (pySt (scrape_products env st)).writes = st.writes ++ [cs.map fullRecord] ∧
    (cs.map fullRecord).length = cs.length := by
  cases cs with
  | nil => exact absurd rfl hne
  | cons c0 cs2 =>
    have hsl := scrapeLoop_all_full (c0 :: cs2)
      { st with extractCalls := st.extractCalls + 1 } hfull
    rw [scrape_products_located env st ((c0 :: cs2).map fullRecord)
      { st with extractCalls := st.extractCalls + 1 } c0 cs2 hd hcs hsl]
    obtain ⟨wok, es, c, hw⟩ := write_to_csv_frame env
      { st with extractCalls := st.extractCalls + 1 } ((c0 :: cs2).map fullRecord)
    refine ⟨wok, ?_, by simp⟩
    rw [hw]

/-- C1 witness: a concrete page with two complete containers yields the
two-record batch. -/
theorem scrape_products_all_fields_batch_witness :
    (St.init.dead = false ∧
     (envGood.pageAt St.init.pageIx).containers = [cFullA, cFullB] ∧
     ([cFullA, cFullB] : List Container) ≠ [] ∧
     (∀ c ∈ [cFullA, cFullB], hasAllFields c = true)) ∧
    (pyOk (scrape_products envGood St.init) = true ∧
     (pySt (scrape_products envGood St.init)).writes =
       St.init.writes ++ [[cFullA, cFullB].map fullRecord] ∧
     ([cFullA, cFullB].map fullRecord).length =
       ([cFullA, cFullB] : List Container).length) :=
  ⟨⟨rfl, rfl, by decide, by decide⟩,
   scrape_products_all_fields_batch envGood St.init [cFullA, cFullB]
     rfl rfl (by decide) (by decide)⟩

/-- C2 counterexample: on a page whose container wait times out, the empty
Batch is NOT handed to the output sink — no write_to_csv call happens; the
method still returns normally with only the NoProductsFoundError logged.
This refutes the claim that the (possibly empty) Batch is still written. -/
theorem scrape_products_timeout_skips_write_cex :
    pyOk (scrape_products envEmpty St.init) = true ∧
    (pySt (scrape_products envEmpty St.init)).writes = [] ∧
    (pySt (scrape_products envEmpty St.init)).events = [Ev.noProducts] := by
  decide

/-- C2 amended: if the bounded wait for containers times out, then
scrape_products logs the NoProductsFoundError non-fatally and returns with
the Batch left empty, but the Batch is NOT handed to the output sink: the
write_to_csv call at daraz.py:88 sits inside the try and is skipped when
the wait raises, so no hand-off and no file change occur. -/
theorem scrape_products_timeout_empty_no_write (env : Env) (st : St)
    (hd : st.dead = false) (he : (env.pageAt st.pageIx).containers = []) :
    pyOk (scrape_products env st) = true ∧
    (pySt (scrape_products env st)).writes = st.writes ∧
    (pySt (scrape_products env st)).csv = st.csv ∧
    (pySt (scrape_products env st)).events = st.events ++ [Ev.noProducts] := by
  have h := scrape_products_timeout env st hd he
  refine ⟨?_, ?_, ?_, ?_⟩ <;> rw [h] <;> simp [pyOk, pySt, push]

/-- C2 witness for the amended statement, at the concrete empty page. -/
theorem scrape_products_timeout_empty_no_write_witness :
    (St.init.dead = false ∧ (envEmpty.pageAt St.init.pageIx).containers = []) ∧
    (pyOk (scrape_products envEmpty St.init) = true ∧
     (pySt (scrape_products envEmpty St.init)).writes = St.init.writes ∧
     (pySt (scrape_products envEmpty St.init)).csv = St.init.csv ∧
     (pySt (scrape_products envEmpty St.init)).events =
       St.init.events ++ [Ev.noProducts]) :=
  ⟨⟨rfl, rfl⟩, scrape_products_timeout_empty_no_write envEmpty St.init rfl rfl⟩

/-- C3: a container missing any sub-field contributes zero Records: the
batch of pre ++ c :: post equals the batch of pre followed by the batch of
post (so every other container's Record is unaffected and extraction
continues), and compared with the same page where that container is
replaced by any complete one, the Batch is smaller by exactly one Record —
one missing field never costs more than one Record. -/
theorem scrapeLoop_missing_field_skip (pre post : List Container)
    (c c2 : Container) (st : St)
    (hc : hasAllFields c = false) (hc2 : hasAllFields c2 = true) :
    (scrapeLoop (pre ++ c :: post) st).1 =
      (scrapeLoop pre st).1 ++ (scrapeLoop post st).1 ∧
    ((scrapeLoop (pre ++ c :: post) st).1).length + 1 =
      ((scrapeLoop (pre ++ c2 :: post) st).1).length := by
  refine ⟨?_, ?_⟩ <;>
      simp [scrapeLoop_fst, List.filter_append, List.filter_cons, hc, hc2] <;>
    omega

/-- C3 witness: the middle container of a concrete three-container page
misses its price; the batch drops exactly that container's record. -/
theorem scrapeLoop_missing_field_skip_witness :
    (hasAllFields cNoPrice = false ∧ hasAllFields cFullB = true) ∧
    ((scrapeLoop ([cFullA] ++ cNoPrice :: [cFullB]) St.init).1 =
       (scrapeLoop [cFullA] St.init).1 ++ (scrapeLoop [cFullB] St.init).1 ∧
     ((scrapeLoop ([cFullA] ++ cNoPrice :: [cFullB]) St.init).1).length + 1 =
       ((scrapeLoop ([cFullA] ++ cFullB :: [cFullB]) St.init).1).length) :=
  ⟨⟨by decide, by decide⟩,
   scrapeLoop_missing_field_skip [cFullA] [cFullB] cNoPrice cFullB St.init
     (by decide) (by decide)⟩

/-- C4: a run over pages ≥ 1 page indices invokes scrape_products exactly
once per index in [0, pages) and never again (extract count rises by
exactly pages), and invokes go_to_next_page exactly pages - 1 times; the
iterLog shows one iteration per index, in order, with the advance taken
exactly on the non-final indices — in particular never on the last. -/
theorem scrape_all_pages_call_counts (env : Env) (pages : Nat) (st : St)
    (h : 1 ≤ pages) :
    (pySt (scrape_all_pages env pages st)).extractCalls =
      st.extractCalls + pages ∧
    (pySt (scrape_all_pages env pages st)).advanceCalls =
      st.advanceCalls + (pages - 1) ∧
    (pySt (scrape_all_pages env pages st)).iterLog =
      st.iterLog ++ (List.range pages).map (fun i => (i, decide (i < pages - 1))) := by
  rw [scrape_all_pages_run]
  simp only [pySt_ok]
  obtain ⟨sext, sadv, siter, -, -, -, -⟩ := start_driver_counts env st
  obtain ⟨lext, ladv, -, -, liter, -⟩ :=
    loopGo_spec env pages pages 0 (pySt (start_driver env st))
  obtain ⟨-, esq, hq⟩ := quit_driver_frame env
    (loopGo env pages pages 0 (pySt (start_driver env st)))
  rw [hq]
  refine ⟨?_, ?_, ?_⟩
  · simp [lext, sext]
  · simp [ladv, sadv]
  · simp [liter, siter, List.range_eq_range']

/-- C4 witness: a concrete three-page run extracts three times, advances
twice, and logs iterations (0, advanced), (1, advanced), (2, no advance). -/
theorem scrape_all_pages_call_counts_witness :
    1 ≤ 3 ∧
    ((pySt (scrape_all_pages envGood 3 St.init)).extractCalls =
       St.init.extractCalls + 3 ∧
     (pySt (scrape_all_pages envGood 3 St.init)).advanceCalls =
       St.init.advanceCalls + (3 - 1) ∧
     (pySt (scrape_all_pages envGood 3 St.init)).iterLog =
       St.init.iterLog ++ (List.range 3).map (fun i => (i, decide (i < 3 - 1)))) :=
  ⟨by decide, scrape_all_pages_call_counts envGood 3 St.init (by decide)⟩

/-- C5 counterexample: with the next-page control clickable, go_to_next_page
does not return True — the Python function has no return statement and
yields None on every path, so it is not the boolean interface the claim
describes. -/
theorem go_to_next_page_returns_none_cex :
    pyVal (go_to_next_page envGood St.init) = some none ∧
    pyVal (go_to_next_page envGood St.init) ≠ some (some true) := by
  decide

/-- C5 amended: go_to_next_page always returns None (not a boolean) and
never raises; on a live session it clicks the control and applies the
3-time-unit settle delay exactly when the control becomes clickable within
the 10-time-unit wait, and when the control is absent or not clickable
within the timeout it logs a warning and changes nothing else. -/
theorem go_to_next_page_click_settle (env : Env) (st : St)
    (hd : st.dead = false) :
    pyOk (go_to_next_page env st) = true ∧
    pyVal (go_to_next_page env st) = some none ∧
    ((env.pageAt st.pageIx).nextClickable = true →
      pySt (go_to_next_page env st) =
        { st with advanceCalls := st.advanceCalls + 1, pageIx := st.pageIx + 1,
                  slept := st.slept + 3 }) ∧
    ((env.pageAt st.pageIx).nextClickable = false →
      pySt (go_to_next_page env st) =
        push { st with advanceCalls := st.advanceCalls + 1 } Ev.advanceWarn) := by
  by_cases hc : (env.pageAt st.pageIx).nextClickable = true
  · rw [go_to_next_page_clickable env st hd hc]
    refine ⟨rfl, rfl, fun _ => rfl, ?_⟩
    intro h2
    rw [h2] at hc
    simp at hc
  · replace hc : (env.pageAt st.pageIx).nextClickable = false := by simpa using hc
    rw [go_to_next_page_timeout env st hd hc]
    refine ⟨rfl, rfl, ?_, fun _ => rfl⟩
    intro h2
    rw [h2] at hc
    simp at hc

/-- C5 witness for the amended statement, on a concrete clickable page. -/
theorem go_to_next_page_click_settle_witness :
    St.init.dead = false ∧
    (pyOk (go_to_next_page envGood St.init) = true ∧
     pyVal (go_to_next_page envGood St.init) = some none ∧
     ((envGood.pageAt St.init.pageIx).nextClickable = true →
       pySt (go_to_next_page envGood St.init) =
         { St.init with advanceCalls := St.init.advanceCalls + 1,
                        pageIx := St.init.pageIx + 1,
                        slept := St.init.slept + 3 }) ∧
     ((envGood.pageAt St.init.pageIx).nextClickable = false →
       pySt (go_to_next_page envGood St.init) =
         push { St.init with advanceCalls := St.init.advanceCalls + 1 }
           Ev.advanceWarn)) :=
  ⟨rfl, go_to_next_page_click_settle envGood St.init rfl⟩

/-- C6 counterexample: when opening the URL fails, a one-page run calls
quit_driver twice — once inside start_driver's failure handler and once at
the end of scrape_all_pages — refuting "closed exactly once, never more
than once" on that exit path. -/
theorem double_close_on_open_failure_cex :
    (pySt (scrape_all_pages envOpenFail 1 St.init)).quitCalls = 2 ∧
    (pySt (scrape_all_pages envOpenFail 1 St.init)).quitCalls ≠ 1 := by
  decide

/-- C6 amended: starting from a live session, every run closes the session
at least once: exactly once when the open succeeds (the loop body never
lets an exception escape, so the only quit is the one after the loop), and
exactly twice when the open fails (start_driver's handler quits, and the
unconditional quit at the end of the run quits again). -/
theorem quit_count_per_run (env : Env) (pages : Nat) (st : St)
    (hd : st.dead = false) :
    (pySt (scrape_all_pages env pages st)).quitCalls =
      st.quitCalls + (if env.openFails then 2 else 1) := by
  rw [scrape_all_pages_run]
  simp only [pySt_ok]
  obtain ⟨-, -, -, -, -, squit, -⟩ := start_driver_counts env st
  obtain ⟨-, -, lquit, -, -, -⟩ :=
    loopGo_spec env pages pages 0 (pySt (start_driver env st))
  obtain ⟨-, esq, hq⟩ := quit_driver_frame env
    (loopGo env pages pages 0 (pySt (start_driver env st)))
  rw [hq]
  simp only [lquit, squit, hd]
  cases ho : env.openFails <;> simp

/-- C6 witness for the amended statement: a successful two-page run closes
the session exactly once. -/
theorem quit_count_per_run_witness :
    St.init.dead = false ∧
    (pySt (scrape_all_pages envGood 2 St.init)).quitCalls =
      St.init.quitCalls + (if envGood.openFails then 2 else 1) :=
  ⟨rfl, quit_count_per_run envGood 2 St.init rfl⟩

/-- C7 counterexample: after a failed open of the target URL, a two-page
run still invokes scrape_products twice (and go_to_next_page once) — the
open failure is swallowed inside start_driver, so the caller DOES
continue, refuting "no extractPage or advancePage call is made after a
failed open". -/
theorem run_continues_after_open_failure_cex :
    (pySt (scrape_all_pages envOpenFail 2 St.init)).extractCalls = 2 ∧
    (pySt (scrape_all_pages envOpenFail 2 St.init)).extractCalls ≠ 0 ∧
    (pySt (scrape_all_pages envOpenFail 2 St.init)).advanceCalls = 1 := by
  decide

/-- C7 amended: if opening the URL fails, start_driver logs the error and
tears the session down immediately, but the failure is swallowed, so the
page loop still runs against the dead session: scrape_products is invoked
once per page index and go_to_next_page on all but the last, each failing
internally; nothing is ever handed to the output sink and the file is
untouched. -/
theorem open_failure_swallowed_run_continues (env : Env) (pages : Nat)
    (st : St) (ho : env.openFails = true) (hd : st.dead = false) :
    pyOk (scrape_all_pages env pages st) = true ∧
    (pySt (scrape_all_pages env pages st)).extractCalls =
      st.extractCalls + pages ∧
    (pySt (scrape_all_pages env pages st)).advanceCalls =
      st.advanceCalls + (pages - 1) ∧
    (pySt (scrape_all_pages env pages st)).writes = st.writes ∧
    (pySt (scrape_all_pages env pages st)).csv = st.csv ∧
    Ev.openError ∈ (pySt (scrape_all_pages env pages st)).events := by
  have hfail : (st.dead || env.openFails) = true := by simp [hd, ho]
  obtain ⟨hdead1, hmem1⟩ := start_driver_fail_facts env st hfail
  obtain ⟨sext, sadv, -, swr, scsv, -, -⟩ := start_driver_counts env st
  obtain ⟨lext, ladv, -, -, -, esl, lev⟩ :=
    loopGo_spec env pages pages 0 (pySt (start_driver env st))
  obtain ⟨lwr, lcsv⟩ :=
    loopGo_dead env pages pages 0 (pySt (start_driver env st)) hdead1
  obtain ⟨-, esq, hq⟩ := quit_driver_frame env
    (loopGo env pages pages 0 (pySt (start_driver env st)))
  rw [scrape_all_pages_run]
  simp only [pySt_ok]
  rw [hq]
  refine ⟨rfl, ?_, ?_, ?_, ?_, ?_⟩
  · simp [lext, sext]
  · simp [ladv, sadv]
  · simp [lwr, swr]
  · simp [lcsv, scsv]
  · refine List.mem_append_left _ ?_
    rw [lev]
    exact List.mem_append_left _ hmem1

/-- C7 witness for the amended statement, on a concrete failed-open
three-page run. -/
theorem open_failure_swallowed_run_continues_witness :
    (envOpenFail.openFails = true ∧ St.init.dead = false) ∧
    (pyOk (scrape_all_pages envOpenFail 3 St.init) = true ∧
     (pySt (scrape_all_pages envOpenFail 3 St.init)).extractCalls =
       St.init.extractCalls + 3 ∧
     (pySt (scrape_all_pages envOpenFail 3 St.init)).advanceCalls =
       St.init.advanceCalls + (3 - 1) ∧
     (pySt (scrape_all_pages envOpenFail 3 St.init)).writes = St.init.writes ∧
     (pySt (scrape_all_pages envOpenFail 3 St.init)).csv = St.init.csv ∧
     Ev.openError ∈ (pySt (scrape_all_pages envOpenFail 3 St.init)).events) :=
  ⟨⟨rfl, rfl⟩, open_failure_swallowed_run_continues envOpenFail 3 St.init rfl rfl⟩

/-- C8: quit_driver never lets an exception escape, a second quit_driver
call straight after the first does not raise either (its handler swallows
any driver.quit failure), and scrape_all_pages always returns normally —
no error of any operation propagates past the run. -/
theorem no_error_propagates_past_run (env : Env) (st : St) (pages : Nat) :
    pyOk (quit_driver env st) = true ∧
    pyOk (quit_driver env (pySt (quit_driver env st))) = true ∧
    pyOk (scrape_all_pages env pages st) = true := by
  refine ⟨(quit_driver_frame env st).1,
          (quit_driver_frame env (pySt (quit_driver env st))).1, ?_⟩
  rw [scrape_all_pages_run]
  rfl

/-- C9: when the file open/write succeeds, write_to_csv appends the Batch
row by row, in Batch order, after whatever the destination already holds;
it creates the file when absent, never truncates or modifies existing
rows, and the open call uses append mode with UTF-8 encoding. -/
theorem write_to_csv_append_only (env : Env) (st : St) (data : List Record)
    (h : env.writeFails st.writes.length = false) :
    pyOk (write_to_csv env st data) = true ∧
    (pySt (write_to_csv env st data)).csv =
      some (csvAfterAppendWrite st.csv data) ∧
    (∀ rows : List Record, st.csv = some rows →
      (pySt (write_to_csv env st data)).csv = some (rows ++ data)) ∧
    (st.csv = none → (pySt (write_to_csv env st data)).csv = some data) ∧
    (pySt (write_to_csv env st data)).writes = st.writes ++ [data] ∧
    csvOpenSpec.mode = "a" ∧ csvOpenSpec.encoding = "utf-8" := by
  rw [write_to_csv_success env st data h]
  refine ⟨rfl, by simp [pySt], ?_, ?_, by simp [pySt], rfl, rfl⟩
  · intro rows hr
    simp [pySt, csvAfterAppendWrite, hr]
  · intro hr
    simp [pySt, csvAfterAppendWrite, hr]

/-- C9 witness: appending a concrete batch after an existing row keeps the
old row first and adds the new rows in order. -/
theorem write_to_csv_append_only_witness :
    envGood.writeFails stPre.writes.length = false ∧
    (pyOk (write_to_csv envGood stPre [fullRecord cFullA]) = true ∧
     (pySt (write_to_csv envGood stPre [fullRecord cFullA])).csv =
       some (csvAfterAppendWrite stPre.csv [fullRecord cFullA]) ∧
     (∀ rows : List Record, stPre.csv = some rows →
       (pySt (write_to_csv envGood stPre [fullRecord cFullA])).csv =
         some (rows ++ [fullRecord cFullA])) ∧
     (stPre.csv = none →
       (pySt (write_to_csv envGood stPre [fullRecord cFullA])).csv =
         some [fullRecord cFullA]) ∧
     (pySt (write_to_csv envGood stPre [fullRecord cFullA])).writes =
       stPre.writes ++ [[fullRecord cFullA]] ∧
     csvOpenSpec.mode = "a" ∧ csvOpenSpec.encoding = "utf-8") :=
  ⟨rfl, write_to_csv_append_only envGood stPre [fullRecord cFullA] rfl⟩

/-- C10: when every file open/write raises, write_to_csv swallows the
error and returns normally — the hand-off is recorded but the file is
unchanged, so the Batch is lost with only an error log; no error reaches
scrape_products or the run, which still performs one extraction per page
while the file stays as it was. -/
theorem write_failure_swallowed (env : Env) (st : St) (data : List Record)
    (pages : Nat) (hw : ∀ n, env.writeFails n = true) :
    pyOk (write_to_csv env st data) = true ∧
    (pySt (write_to_csv env st data)).csv = st.csv ∧
    (pySt (write_to_csv env st data)).writes = st.writes ++ [data] ∧
    (pySt (write_to_csv env st data)).events = st.events ++ [Ev.writeError] ∧
    pyOk (scrape_all_pages env pages st) = true ∧
    (pySt (scrape_all_pages env pages st)).csv = st.csv ∧
    (pySt (scrape_all_pages env pages st)).extractCalls =
      st.extractCalls + pages := by
  have hwc := write_to_csv_failed env st data (hw st.writes.length)
  refine ⟨?_, ?_, ?_, ?_, ?_, ?_, ?_⟩
  · rw [hwc]; rfl
  · rw [hwc]; simp [pySt, push]
  · rw [hwc]; simp [pySt, push]
  · rw [hwc]; simp [pySt, push]
  · rw [scrape_all_pages_run]; rfl
  · rw [scrape_all_pages_run]
    simp only [pySt_ok]
    obtain ⟨-, -, -, -, scsv, -, -⟩ := start_driver_counts env st
    obtain ⟨-, esq, hq⟩ := quit_driver_frame env
      (loopGo env pages pages 0 (pySt (start_driver env st)))
    rw [hq]
    simp [loopGo_allfail env pages hw pages 0 (pySt (start_driver env st)), scsv]
  · rw [scrape_all_pages_run]
    simp only [pySt_ok]
    obtain ⟨sext, -, -, -, -, -, -⟩ := start_driver_counts env st
    obtain ⟨lext, -, -, -, -, -⟩ :=
      loopGo_spec env pages pages 0 (pySt (start_driver env st))
    obtain ⟨-, esq, hq⟩ := quit_driver_frame env
      (loopGo env pages pages 0 (pySt (start_driver env st)))
    rw [hq]
    simp [lext, sext]

/-- C10 witness: a concrete two-page run against a sink whose writes all
fail loses every batch, leaves the file absent, and still extracts both
pages. -/
theorem write_failure_swallowed_witness :
    (∀ n, envWriteFail.writeFails n = true) ∧
    (pyOk (write_to_csv envWriteFail St.init [fullRecord cFullA]) = true ∧
     (pySt (write_to_csv envWriteFail St.init [fullRecord cFullA])).csv =
       St.init.csv ∧
     (pySt (write_to_csv envWriteFail St.init [fullRecord cFullA])).writes =
       St.init.writes ++ [[fullRecord cFullA]] ∧
     (pySt (write_to_csv envWriteFail St.init [fullRecord cFullA])).events =
       St.init.events ++ [Ev.writeError] ∧
     pyOk (scrape_all_pages envWriteFail 2 St.init) = true ∧
     (pySt (scrape_all_pages envWriteFail 2 St.init)).csv = St.init.csv ∧
     (pySt (scrape_all_pages envWriteFail 2 St.init)).extractCalls =
       St.init.extractCalls + 2) :=
  ⟨fun _ => rfl,
   write_failure_swallowed envWriteFail St.init [fullRecord cFullA] 2
     (fun _ => rfl)⟩

end Daraz
